import Mathlib

/-!
Verification of the focusnook storage layer: a shallow embedding of the
Google Drive storage adapter (`googleDrive.js`), the Todoist API service
(`todoistApi.js`) and the application shell's boot / save-effect logic
(`App.jsx`), with theorems settling the specified properties.

JavaScript values stored through the adapters are JSON-serializable, so we
model them with an inductive `JsonValue` type; JS objects are association
lists preserving insertion order, with assignment replacing an existing
key in place.  Network and API calls are modelled as explicit
`Except`-valued oracles passed to the embedded functions: an `.error`
outcome stands for a rejected promise / thrown exception, and a function
whose result is itself `Except` propagates such an error exactly where the
source rethrows it.
-/

namespace Focusnook

/-- JSON-serializable JavaScript values (numbers modelled as integers). -/
inductive JsonValue : Type where
  | null : JsonValue
  | bool : Bool → JsonValue
  | num : Int → JsonValue
  | str : String → JsonValue
  | arr : List JsonValue → JsonValue
  | obj : List (String × JsonValue) → JsonValue
  deriving Repr, Inhabited

/-- JavaScript truthiness of a JSON value: `null`, `false`, `0` and the
empty string are falsy; every array and object (even empty) is truthy. -/
def jsTruthy : JsonValue → Bool
  | .null => false
  | .bool b => b
  | .num n => n != 0
  | .str s => s != ""
  | .arr _ => true
  | .obj _ => true

/-- A JS object used as a string-keyed document: an insertion-ordered
association list. -/
abbrev Doc : Type := List (String × JsonValue)

/-- Property lookup `d[k]` on a JS object, `none` standing for `undefined`. -/
def docGet : Doc → String → Option JsonValue
  | [], _ => none
  | (k', v) :: rest, k => if k' = k then some v else docGet rest k

/-- Property assignment `d[k] = v` on a JS object: replaces the value in
place if the key exists, otherwise appends the new entry. -/
def docSet : Doc → String → JsonValue → Doc
  | [], k, v => [(k, v)]
  | (k', v') :: rest, k, v =>
      if k' = k then (k, v) :: rest else (k', v') :: docSet rest k v

theorem docGet_docSet_self (d : Doc) (k : String) (v : JsonValue) :
    docGet (docSet d k v) k = some v := by
  induction d with
  | nil => simp [docSet, docGet]
  | cons p rest ih =>
      by_cases h : p.1 = k
      · simp [docSet, h, docGet]
      · simp [docSet, h, docGet, ih]

theorem docGet_docSet_ne (d : Doc) (k k' : String) (v : JsonValue)
    (h : k' ≠ k) : docGet (docSet d k' v) k = docGet d k := by
  induction d with
  | nil => simp [docSet, docGet, h]
  | cons p rest ih =>
      by_cases hp : p.1 = k'
      · have hpk : p.1 ≠ k := fun hc => h (hp ▸ hc)
        simp [docSet, hp, docGet, h, hpk]
      · simp only [docSet, hp, if_false]
        by_cases hq : p.1 = k
        · simp [docGet, hq]
        · simp [docGet, hq, ih]

theorem docSet_ne_nil (d : Doc) (k : String) (v : JsonValue) :
    docSet d k v ≠ [] := by
  cases d with
  | nil => simp [docSet]
  | cons p rest =>
      by_cases h : p.1 = k <;> simp [docSet, h]

/-- `o || null` on a possibly-absent JS value: a missing or falsy value
degrades to JS `null` (the shape of `this.cache[key] || null`). -/
def jsOrNull : Option JsonValue → JsonValue
  | none => .null
  | some v => if jsTruthy v then v else .null

/-! ### The Google Drive adapter state (`googleDrive.js`)

Module state: `accessToken` / `configFileId` (absent = JS `null`) and the
in-memory document cache `this.cache`. -/

structure DriveState : Type where
  accessToken : Option String
  configFileId : Option String
  cache : Doc
  deriving Repr

/-- `loadAllData`: with no file id it returns at once; otherwise it fetches
the file contents (`resp`: `.ok (some d)` a truthy JSON object `d`,
`.ok none` a falsy `response.result`, `.error` a thrown API error) and sets
`this.cache = response.result || {}`; the catch block swallows the error
and resets the cache to `{}`. It never propagates an error. -/
def loadAllData (st : DriveState) (resp : Except String (Option Doc)) :
    DriveState :=
  match st.configFileId with
  | none => st
  | some _ =>
      match resp with
      | .ok (some d) => { st with cache := d }
      | .ok none => { st with cache := [] }
      | .error _ => { st with cache := [] }

/-- `saveAllData`: skipped when no file id is known; otherwise issues the
media-upload PATCH (`resp`), logging—and dropping—any failure. The
returned `Bool` records whether the remote write actually succeeded.
The result is always `.ok`: every failure path is caught. -/
def saveAllData (st : DriveState) (resp : Except String Unit) :
    Except String (DriveState × Bool) :=
  match st.configFileId with
  | none => .ok (st, false)
  | some _ =>
      match resp with
      | .ok _ => .ok (st, true)
      | .error _ => .ok (st, false)

/-- The synchronous cache mutation performed by `setItem`:
`this.cache[key] = value`. -/
def setItemCache (st : DriveState) (k : String) (v : JsonValue) :
    DriveState :=
  { st with cache := docSet st.cache k v }

/-- `setItem(key, value)` followed by the debounced flush it schedules:
the cache mutation, then `saveAllData` with the write outcome `saveResp`.
Always `.ok`: neither step can throw. -/
def setItemThenFlush (st : DriveState) (k : String) (v : JsonValue)
    (saveResp : Except String Unit) : Except String (DriveState × Bool) :=
  saveAllData (setItemCache st k v) saveResp

/-- `getItem(key)`: returns `null` when neither a token nor a file id is
known; lazily rehydrates an empty cache from the remote file when a file
id is known (`resp` is that fetch's outcome); finally returns
`this.cache[key] || null`. Always `.ok`: `loadAllData` swallows its
errors. -/
def getItem (st : DriveState) (resp : Except String (Option Doc))
    (k : String) : Except String (JsonValue × DriveState) :=
  if st.accessToken = none ∧ st.configFileId = none then
    .ok (.null, st)
  else
    let st' := if st.configFileId.isSome ∧ st.cache.isEmpty then
        loadAllData st resp
      else st
    .ok (jsOrNull (docGet st'.cache k), st')

/-! ### Debounce timing model for `setItem` (C2)

`setItem` clears any pending `saveTimeout` and schedules `saveAllData`
2000 ms later.  We model wall-clock time explicitly: a `DebounceState`
carries the cache, the fire time of the pending timer (if any), and the
log of full-document flushes performed so far.  `hasFile` records whether
`configFileId` is set (without it `saveAllData` skips the write). -/

structure DebounceState : Type where
  hasFile : Bool
  cache : Doc
  pending : Option Nat
  flushes : List Doc

/-- The debounce quiet period: `setTimeout(..., 2000)`. -/
def debounceMs : Nat := 2000

/-- Advance wall-clock time to `t`: if the pending timer's fire time has
been reached, the timeout callback runs `saveAllData`, which serializes
the entire cached document (when a file id is known). -/
def fireDueTimer (st : DebounceState) (t : Nat) : DebounceState :=
  match st.pending with
  | none => st
  | some ft =>
      if ft ≤ t then
        { st with
            pending := none
            flushes := st.flushes ++ (if st.hasFile then [st.cache] else []) }
      else st

/-- `setItem(key, value)` called at wall-clock time `t`: any timer already
due has fired beforehand; the cache is mutated immediately; the pending
timer (if any) is cleared and a new one is scheduled `debounceMs` later. -/
def setItemAt (st : DebounceState) (t : Nat) (k : String) (v : JsonValue) :
    DebounceState :=
  let st' := fireDueTimer st t
  { st' with cache := docSet st'.cache k v, pending := some (t + debounceMs) }

/-! ### Token lifecycle and `restoreSession` (C3, C4)

Module state `accessToken` / `tokenExpiry` plus their localStorage mirror
`gdrive_token` / `gdrive_expiry`.  The stored expiry is a numeric string;
we model it as an `Option Int` (present iff the stored string is
non-empty, its `Number(...)` value). -/

structure SessionState : Type where
  memToken : Option String
  memExpiry : Option Int
  lsToken : Option String
  lsExpiry : Option Int
  deriving Repr, DecidableEq

/-- JS truthiness of a string-or-null value (empty string is falsy). -/
def optStrTruthy : Option String → Bool
  | none => false
  | some s => s != ""

/-- `hasValidToken`: `accessToken !== null && tokenExpiry > Date.now()`
(a `null` expiry coerces to `0` in the comparison). -/
def hasValidToken (st : SessionState) (now : Int) : Bool :=
  st.memToken != none && (st.memExpiry.getD 0) > now

/-- `clearToken`: resets the in-memory token and expiry and removes both
localStorage mirrors. -/
def clearToken (st : SessionState) : SessionState :=
  { st with memToken := none, memExpiry := none,
            lsToken := none, lsExpiry := none }

/-- The fully cleared session state `clearToken` produces. -/
def clearedSession : SessionState :=
  { memToken := none, memExpiry := none, lsToken := none, lsExpiry := none }

/-- `restoreSession` (after a successful `initialize()`): reads the saved
token and expiry from localStorage; if both are truthy and
`Number(savedExpiry) > now`, restores them into memory and attempts to
resolve the config file (`api` is that call's outcome) — on API failure it
runs `clearToken()` and returns `false`; otherwise it returns `false`
without touching any state.  Result: (returned value, whether the silent
restore path was attempted, resulting state). -/
def restoreSession (st : SessionState) (now : Int)
    (api : Except String Unit) : Bool × Bool × SessionState :=
  if optStrTruthy st.lsToken && st.lsExpiry.isSome
      && (st.lsExpiry.getD 0) > now then
    let st' := { st with memToken := st.lsToken, memExpiry := st.lsExpiry }
    match api with
    | .ok _ => (true, true, st')
    | .error _ => (false, true, clearToken st')
  else
    (false, false, st)

/-- What `App.jsx`'s init effect does with `restoreSession`'s result:
`true` activates the Drive adapter and loads data; `false` sets
`needsDriveAuth`, presenting the interactive "Connect to Drive" flow. -/
inductive BootAction : Type where
  | activateDriveAndLoad : BootAction
  | interactiveAuth : BootAction
  deriving Repr, DecidableEq

def postRestoreAction (restored : Bool) : BootAction :=
  if restored then .activateDriveAndLoad else .interactiveAuth

/-! ### `findOrCreateConfigFile` / `createConfigFile` (C6)

The files.list response carries `response.result.files` (possibly absent);
`createConfigFile` issues one multipart create whose file content is the
empty JSON object, records `data.id` (possibly absent in an error body)
and resets the cache; both functions rethrow caught errors.  The result is
paired with the list of document bodies sent in create requests, so
"exactly one file is created" is the statement that this list is
`[[]]` (one create, empty JSON content). -/

structure DriveFile : Type where
  id : String
  name : String
  deriving Repr, DecidableEq

/-- `createConfigFile`: one create request with body `JSON.stringify({})`;
on success stores `data.id` and resets the cache; on failure rethrows. -/
def createConfigFile (st : DriveState)
    (createResp : Except String (Option String)) :
    Except String DriveState × List Doc :=
  match createResp with
  | .error e => (.error e, [([] : Doc)])
  | .ok fid => (.ok { st with configFileId := fid, cache := [] }, [([] : Doc)])

/-- `findOrCreateConfigFile`: lists files named `focusnook-data.json`; if
the list call fails the error is rethrown; if some file matches, the first
match becomes `configFileId` and the cache is pre-loaded via
`loadAllData`; otherwise `createConfigFile` runs. -/
def findOrCreateConfigFile (st : DriveState)
    (listResp : Except String (Option (List DriveFile)))
    (createResp : Except String (Option String))
    (loadResp : Except String (Option Doc)) :
    Except String DriveState × List Doc :=
  match listResp with
  | .error e => (.error e, [])
  | .ok files =>
      match files with
      | some (f :: _) =>
          (.ok (loadAllData { st with configFileId := some f.id } loadResp), [])
      | some [] => createConfigFile st createResp
      | none => createConfigFile st createResp

/-! ### Todoist task normalization (`todoistApi.js`, C7)

`getTasks` receives either the legacy flat array of task objects or the
v1 paginated envelope `{ results, next_cursor }` (whose `results` field
may be absent), and maps each upstream task to the stable local shape. -/

structure TodoistTask : Type where
  id : String
  content : String
  checked : Option Bool
  isCompleted : Option Bool
  projectId : Option String
  due : Option JsonValue
  deriving Repr

structure LocalTask : Type where
  id : String
  text : String
  completed : Bool
  todoistId : String
  projectId : Option String
  due : Option JsonValue
  deriving Repr

/-- The upstream response body: a flat array (legacy shape) or the
paginated `\x7b results, next_cursor \x7d` envelope. -/
inductive TasksResponse : Type where
  | flat : List TodoistTask → TasksResponse
  | envelope : Option (List TodoistTask) → Option String → TasksResponse

/-- `Array.isArray(data) ? data : (data.results ?? [])`. -/
def tasksOf : TasksResponse → List TodoistTask
  | .flat ts => ts
  | .envelope r _ => r.getD []

/-- Per-task mapping: `completed` is
`task.checked ?? task.is_completed ?? false` (the `??` chain skips only
absent values, so an explicit `false` is kept). -/
def normalizeTask (t : TodoistTask) : LocalTask :=
  { id := t.id
    text := t.content
    completed := t.checked.getD (t.isCompleted.getD false)
    todoistId := t.id
    projectId := t.projectId
    due := t.due }

/-- The response-shape translation performed by `getTasks` after the
request resolves. -/
def getTasks (resp : TasksResponse) : List LocalTask :=
  (tasksOf resp).map normalizeTask

/-! ### Boot-time adapter decision (`App.jsx` init effect, C8) -/

/-- The localStorage fields the init effect consults. -/
structure BootLs : Type where
  storageType : Option String
  gdriveToken : Option String
  gdriveExpiry : Option Int
  deriving Repr, DecidableEq

/-- The init effect's preference logic: reads `focusnook-storage-type`;
if it is falsy but a truthy `gdrive_token` and `gdrive_expiry` with
`Number(expiry) > Date.now()` exist, the preference is set to `'gdrive'`
and recorded back to localStorage.  Returns the updated localStorage
contents and whether the recovery inference fired.  This runs before any
`loadData` call, so the decision depends only on these fields. -/
def initStorageType (ls : BootLs) (now : Int) : BootLs × Bool :=
  if optStrTruthy ls.storageType then
    (ls, false)
  else if optStrTruthy ls.gdriveToken && ls.gdriveExpiry.isSome
      && (ls.gdriveExpiry.getD 0) > now then
    ({ ls with storageType := some "gdrive" }, true)
  else
    (ls, false)

/-- `if (storageType === 'gdrive')`: which adapter path boot takes. -/
def bootAdapterPath (storageType : Option String) : String :=
  if storageType = some "gdrive" then "gdrive" else "local"

/-! ### Application-shell save effects (`App.jsx`, C9, C10)

Each piece of shell state has its own `useEffect` with dependency list
`[thatState, isLoading]`, so a mutation of one piece re-runs exactly that
piece's effect.  We embed each effect as the list of `storage.set` calls
it issues for a given state and `isLoading` value. -/

inductive StatePiece : Type where
  | enabledWidgets
  | widgetVisibility
  | currentSpace
  | settings
  | todoistConfig
  | musicState
  | customSpaces
  deriving Repr, DecidableEq

/-- The shell state owned by `App`, with each piece an arbitrary JS value
(`currentSpace` an object carrying an `id` field, `musicState` an object
possibly carrying `customStreams`). -/
structure ShellState : Type where
  enabledWidgets : JsonValue
  widgetVisibility : JsonValue
  currentSpace : JsonValue
  settings : JsonValue
  todoistConfig : JsonValue
  musicState : JsonValue
  customSpaces : JsonValue

/-- Property access `v.f` on a JS value (`undefined` → `null`). -/
def jsField (v : JsonValue) (f : String) : JsonValue :=
  match v with
  | .obj fs => (docGet fs f).getD .null
  | _ => .null

/-- The `storage.set` calls issued by the save effect of piece `p` when it
runs with the given state and `isLoading` flag. Every effect is guarded by
`if (!isLoading)`; the current-space effect additionally requires
`currentSpace` truthy; the music effect writes `focusnook-music` and, when
`musicState.customStreams` is truthy, also `chillspace-custom-streams`. -/
def saveEffect (p : StatePiece) (isLoading : Bool) (st : ShellState) :
    List (String × JsonValue) :=
  if isLoading then []
  else
    match p with
    | .enabledWidgets => [("focusnook-enabled-widgets", st.enabledWidgets)]
    | .widgetVisibility =>
        [("focusnook-widget-visibility", st.widgetVisibility)]
    | .currentSpace =>
        if jsTruthy st.currentSpace then
          [("focusnook-current-space", jsField st.currentSpace "id")]
        else []
    | .settings => [("focusnook-settings", st.settings)]
    | .todoistConfig => [("focusnook-todoist", st.todoistConfig)]
    | .musicState =>
        ("focusnook-music", st.musicState) ::
          (if jsTruthy (jsField st.musicState "customStreams") then
            [("chillspace-custom-streams", jsField st.musicState "customStreams")]
          else [])
    | .customSpaces => [("chillspace-custom-spaces", st.customSpaces)]

/-- The logical keys belonging to each piece's save effect (read off the
`storage.set` calls in its `useEffect`). -/
def ownKeys : StatePiece → List String
  | .enabledWidgets => ["focusnook-enabled-widgets"]
  | .widgetVisibility => ["focusnook-widget-visibility"]
  | .currentSpace => ["focusnook-current-space"]
  | .settings => ["focusnook-settings"]
  | .todoistConfig => ["focusnook-todoist"]
  | .musicState => ["focusnook-music", "chillspace-custom-streams"]
  | .customSpaces => ["chillspace-custom-spaces"]

/-- The eight logical keys of `loadData`'s startup bulk read. -/
def loadKeys : List String :=
  ["focusnook-custom-spaces", "focusnook-current-space",
   "focusnook-enabled-widgets", "focusnook-widget-visibility",
   "focusnook-settings", "focusnook-todoist", "focusnook-music",
   "focusnook-custom-streams"]

/-- Apply a list of `storage.set` calls to a key/value store. -/
def applyWrites (s : Doc) (ws : List (String × JsonValue)) : Doc :=
  ws.foldl (fun acc kv => docSet acc kv.1 kv.2) s

/-- A session of shell save-effect executions (each event: which piece's
effect ran, with what `isLoading` flag and shell state), applied in order
to a key/value store. -/
def runSession (s : Doc) : List (StatePiece × Bool × ShellState) → Doc
  | [] => s
  | (p, l, st) :: evs => runSession (applyWrites s (saveEffect p l st)) evs

/-! ## Theorems -/

theorem docSet_isEmpty_eq_false (d : Doc) (k : String) (v : JsonValue) :
    (docSet d k v).isEmpty = false := by
  cases hd : docSet d k v with
  | nil => exact absurd hd (docSet_ne_nil d k v)
  | cons p rest => rfl

/-- C1 counterexample: with a connected adapter, `setItem("k", false)`
followed by `getItem("k")` returns JS `null`, which is not deep-equal to
the stored value `false`: `this.cache[key] || null` collapses every falsy
value to `null`. -/
theorem c1_falsy_roundtrip_cex :
    getItem (setItemCache ⟨some "tok", some "fid", []⟩ "k" (.bool false))
        (.ok none) "k"
      = .ok (.null, setItemCache ⟨some "tok", some "fid", []⟩ "k" (.bool false))
    ∧ JsonValue.null ≠ JsonValue.bool false := by
  constructor
  · rfl
  · intro h
    exact JsonValue.noConfusion h

/-- C1 (amended): for every key `k` and JSON-serializable value `v` that
is JS-truthy, when the adapter has an access token or a resolved config
file id, `setItem(k, v)` followed by `getItem(k)` (the debounce flush does
not touch the cache) returns a value deep-equal to `v`. -/
theorem c1_truthy_roundtrip (st : DriveState) (k : String) (v : JsonValue)
    (resp : Except String (Option Doc))
    (hconn : st.accessToken ≠ none ∨ st.configFileId ≠ none)
    (hv : jsTruthy v = true) :
    getItem (setItemCache st k v) resp k = .ok (v, setItemCache st k v) := by
  have hguard : ¬((setItemCache st k v).accessToken = none ∧
      (setItemCache st k v).configFileId = none) := by
    rcases hconn with h | h
    · exact fun hc => h hc.1
    · exact fun hc => h hc.2
  have hcond : ¬((setItemCache st k v).configFileId.isSome = true ∧
      ((setItemCache st k v).cache).isEmpty = true) := by
    intro hc
    have := hc.2
    simp only [setItemCache] at this
    rw [docSet_isEmpty_eq_false st.cache k v] at this
    exact Bool.false_ne_true this
  simp only [getItem]
  rw [if_neg hguard, if_neg hcond]
  show Except.ok (jsOrNull (docGet (docSet st.cache k v) k), _) = _
  rw [docGet_docSet_self]
  simp [jsOrNull, hv]

/-- C1 witness: a concrete truthy round-trip. -/
theorem c1_truthy_roundtrip_witness :
    getItem (setItemCache ⟨some "tok", some "fid", []⟩ "a" (.num 7))
        (.ok none) "a"
      = .ok (.num 7, setItemCache ⟨some "tok", some "fid", []⟩ "a" (.num 7)) :=
  c1_truthy_roundtrip ⟨some "tok", some "fid", []⟩ "a" (.num 7) (.ok none)
    (Or.inl (by simp)) rfl

/-- C2: two `setItem` calls on the same key within the 2-second quiet
period leave exactly one flush in the log once the surviving timer fires:
the full document, whose entry for `k` is `v2`, not `v1` (the first
scheduled write was cancelled and never ran). -/
theorem c2_debounce_coalesce (st0 : DebounceState) (k : String)
    (v1 v2 : JsonValue) (t1 t2 T : Nat)
    (hfile : st0.hasFile = true) (hpend : st0.pending = none)
    (hflush : st0.flushes = []) (_h12 : t1 ≤ t2)
    (hq : t2 < t1 + debounceMs) (hT : t2 + debounceMs ≤ T)
    (hne : v1 ≠ v2) :
    ∃ d, (fireDueTimer (setItemAt (setItemAt st0 t1 k v1) t2 k v2) T).flushes
          = [d]
      ∧ docGet d k = some v2 ∧ docGet d k ≠ some v1 := by
  have h1 : setItemAt st0 t1 k v1 =
      { st0 with cache := docSet st0.cache k v1,
                 pending := some (t1 + debounceMs) } := by
    simp [setItemAt, fireDueTimer, hpend]
  have hnofire : ¬(t1 + debounceMs ≤ t2) := by omega
  have h2 : setItemAt (setItemAt st0 t1 k v1) t2 k v2 =
      { st0 with cache := docSet (docSet st0.cache k v1) k v2,
                 pending := some (t2 + debounceMs) } := by
    rw [h1]
    simp [setItemAt, fireDueTimer, hnofire]
  refine ⟨docSet (docSet st0.cache k v1) k v2, ?_, ?_, ?_⟩
  · rw [h2]
    simp [fireDueTimer, hT, hfile, hflush]
  · exact docGet_docSet_self _ _ _
  · rw [docGet_docSet_self]
    intro h
    exact hne (Option.some.inj h).symm

/-- C2 witness: a concrete coalesced pair of writes. -/
theorem c2_debounce_coalesce_witness :
    ∃ d, (fireDueTimer
            (setItemAt (setItemAt ⟨true, [], none, []⟩ 0 "k" (.num 1))
              1000 "k" (.num 2)) 3000).flushes = [d]
      ∧ docGet d "k" = some (.num 2) ∧ docGet d "k" ≠ some (.num 1) :=
  c2_debounce_coalesce ⟨true, [], none, []⟩ "k" (.num 1) (.num 2) 0 1000 3000
    rfl rfl rfl (by omega) (by simp [debounceMs]) (by simp [debounceMs])
    (fun h => by
      have := JsonValue.num.inj h
      omega)

/-- C3 counterexample: with a cached token whose expiry is in the past,
`restoreSession` fails (returns `false`) but does not clear the cached
token — the localStorage mirror still holds it afterwards: the expired
branch has no `clearToken()` call. -/
theorem c3_expired_no_clear_cex :
    restoreSession ⟨none, none, some "tok", some 0⟩ 5 (.ok ())
      = (false, false, ⟨none, none, some "tok", some 0⟩)
    ∧ (⟨none, none, some "tok", some 0⟩ : SessionState).lsToken = some "tok" :=
  ⟨rfl, rfl⟩

/-- C3 (amended): when the silent path fails because the API call made
with the restored token fails, `restoreSession` clears the cached token
from memory and local storage and returns `false`; when the cached token
is expired it returns `false` without clearing anything. -/
theorem c3_clear_on_api_failure (st : SessionState) (tok : String)
    (x now : Int) (e : String) (api : Except String Unit)
    (ht : st.lsToken = some tok) (htok : tok ≠ "")
    (hx : st.lsExpiry = some x) :
    (now < x → restoreSession st now (.error e) = (false, true, clearedSession))
    ∧ (x ≤ now → restoreSession st now api = (false, false, st)) := by
  constructor
  · intro hlt
    have hc : (optStrTruthy st.lsToken && st.lsExpiry.isSome
        && decide ((st.lsExpiry.getD 0) > now)) = true := by
      simp [optStrTruthy, ht, hx, htok]
      omega
    simp only [restoreSession, hc, if_true]
    simp [clearToken, clearedSession]
  · intro hle
    have hc : (optStrTruthy st.lsToken && st.lsExpiry.isSome
        && decide ((st.lsExpiry.getD 0) > now)) = false := by
      simp [hx]
      intros
      omega
    simp [restoreSession, hc]

/-- C3 witness: a concrete API failure clears the token; a concrete
expired token fails without clearing. -/
theorem c3_clear_on_api_failure_witness :
    ((5 : Int) < 10 →
      restoreSession ⟨none, none, some "tok", some 10⟩ 5 (.error "boom")
        = (false, true, clearedSession))
    ∧ ((10 : Int) ≤ 5 →
      restoreSession ⟨none, none, some "tok", some 10⟩ 5 (.ok ())
        = (false, false, ⟨none, none, some "tok", some 10⟩)) :=
  c3_clear_on_api_failure ⟨none, none, some "tok", some 10⟩ "tok" 10 5 "boom"
    (.ok ()) rfl (by simp) rfl

/-- C4: a cached token whose expiry is not strictly in the future (in
particular 1 ms in the past) is invalid: `restoreSession` never attempts
the silent-restore path and returns `false`, the caller's next action is
the interactive-auth flow, and `hasValidToken` rejects such a token. -/
theorem c4_expired_token_interactive (st : SessionState) (x now : Int)
    (api : Except String Unit) (t : String)
    (hx : st.lsExpiry = some x) (hle : x ≤ now) :
    restoreSession st now api = (false, false, st)
    ∧ postRestoreAction (restoreSession st now api).1 = .interactiveAuth
    ∧ hasValidToken ⟨some t, some x, st.lsToken, st.lsExpiry⟩ now = false := by
  have hc : (optStrTruthy st.lsToken && st.lsExpiry.isSome
      && decide ((st.lsExpiry.getD 0) > now)) = false := by
    simp [hx]
    intros
    omega
  have hr : restoreSession st now api = (false, false, st) := by
    simp [restoreSession, hc]
  refine ⟨hr, ?_, ?_⟩
  · rw [hr]
    rfl
  · simp [hasValidToken]
    omega

/-- C4 witness: expiry exactly 1 ms before `now`. -/
theorem c4_expired_token_interactive_witness :
    restoreSession ⟨none, none, some "t", some 4⟩ 5 (.ok ())
      = (false, false, ⟨none, none, some "t", some 4⟩)
    ∧ postRestoreAction
        (restoreSession ⟨none, none, some "t", some 4⟩ 5 (.ok ())).1
      = .interactiveAuth
    ∧ hasValidToken ⟨some "t", some 4, some "t", some 4⟩ 5 = false :=
  c4_expired_token_interactive ⟨none, none, some "t", some 4⟩ 4 5 (.ok ()) "t"
    rfl (by omega)

/-- C5: `getItem` and `setItem` (with its debounced `saveAllData` flush)
never raise for any adapter state and any network outcome: both always
produce an `.ok` result; a failed remote read degrades to a `null` read
(the cache is reset to the empty document), and a failed remote write is
dropped (the flush reports failure without propagating it and leaves only
the in-memory cache mutation). -/
theorem c5_get_set_never_throw (st : DriveState)
    (resp : Except String (Option Doc)) (k : String) (v : JsonValue)
    (saveResp : Except String Unit) (a : Option String) (fid : String)
    (e e' : String) :
    (∃ r, getItem st resp k = .ok r)
    ∧ (∃ r, setItemThenFlush st k v saveResp = .ok r)
    ∧ getItem ⟨a, some fid, []⟩ (.error e) k
        = .ok (.null, ⟨a, some fid, []⟩)
    ∧ setItemThenFlush st k v (.error e')
        = .ok (setItemCache st k v, false) := by
  refine ⟨?_, ?_, ?_, ?_⟩
  · simp only [getItem]
    split
    · exact ⟨_, rfl⟩
    · exact ⟨_, rfl⟩
  · cases hf : st.configFileId with
    | none =>
        exact ⟨(setItemCache st k v, false),
          by simp [setItemThenFlush, saveAllData, setItemCache, hf]⟩
    | some f =>
        cases saveResp with
        | ok u =>
            exact ⟨(setItemCache st k v, true),
              by simp [setItemThenFlush, saveAllData, setItemCache, hf]⟩
        | error err =>
            exact ⟨(setItemCache st k v, false),
              by simp [setItemThenFlush, saveAllData, setItemCache, hf]⟩
  · simp [getItem, loadAllData, docGet, jsOrNull]
  · cases hf : st.configFileId with
    | none => simp [setItemThenFlush, saveAllData, setItemCache, hf]
    | some f => simp [setItemThenFlush, saveAllData, setItemCache, hf]

/-- C6 counterexample: with no file matching the well-known name,
`findOrCreateConfigFile` issues the create request, and when that request
fails the error is rethrown to the caller — the function does throw. -/
theorem c6_create_failure_throws_cex :
    findOrCreateConfigFile ⟨some "tok", none, []⟩ (.ok (some []))
        (.error "network error") (.ok none)
      = (.error "network error", [[]]) := rfl

/-- C6 (amended): when no file matches (empty or absent list),
`findOrCreateConfigFile` issues exactly one create request, whose content
is the empty JSON document, and on success adopts the created file id with
an empty cache; if the create request fails the error is rethrown rather
than swallowed; when one or more files match, the first match becomes the
single authoritative file and no create request is issued. -/
theorem c6_first_match_or_single_create (st : DriveState)
    (loadResp : Except String (Option Doc))
    (createResp : Except String (Option String))
    (f : DriveFile) (fs : List DriveFile) (fid : String) (e : String) :
    findOrCreateConfigFile st (.ok (some [])) (.ok (some fid)) loadResp
      = (.ok { st with configFileId := some fid, cache := [] }, [[]])
    ∧ findOrCreateConfigFile st (.ok none) (.ok (some fid)) loadResp
      = (.ok { st with configFileId := some fid, cache := [] }, [[]])
    ∧ findOrCreateConfigFile st (.ok (some (f :: fs))) createResp loadResp
      = (.ok (loadAllData { st with configFileId := some f.id } loadResp), [])
    ∧ findOrCreateConfigFile st (.ok (some [])) (.error e) loadResp
      = (.error e, [[]]) :=
  ⟨rfl, rfl, rfl, rfl⟩

/-- C7: for every upstream task list, `getTasks` normalizes the legacy
flat-array response and the paginated envelope carrying the same tasks to
the identical local task list. -/
theorem c7_shape_normalization (ts : List TodoistTask) (c : Option String) :
    getTasks (.flat ts) = getTasks (.envelope (some ts) c) := rfl

/-- C8: on boot (the storage-type flag being either unrecorded or the
recorded value `'gdrive'`), the recovery inference fires exactly when no
preference flag is recorded and a cached remote token with expiry strictly
in the future exists; when it fires, the preference becomes `'gdrive'`,
is recorded back to localStorage, and the boot path selects the remote
adapter.  The decision reads only these localStorage fields, before any
data is loaded. -/
theorem c8_boot_preference_inferred_iff (ls : BootLs) (now : Int)
    (h : ls.storageType = none ∨ ls.storageType = some "gdrive") :
    ((initStorageType ls now).2 = true ↔
      ls.storageType = none ∧ optStrTruthy ls.gdriveToken = true ∧
        ∃ e, ls.gdriveExpiry = some e ∧ now < e)
    ∧ ((initStorageType ls now).2 = true →
        (initStorageType ls now).1.storageType = some "gdrive"
        ∧ bootAdapterPath (initStorageType ls now).1.storageType
            = "gdrive") := by
  rcases h with h0 | h0
  · have ht : optStrTruthy ls.storageType = false := by
      simp [optStrTruthy, h0]
    by_cases hc : (optStrTruthy ls.gdriveToken && ls.gdriveExpiry.isSome
        && decide ((ls.gdriveExpiry.getD 0) > now)) = true
    · have hres : initStorageType ls now
          = ({ ls with storageType := some "gdrive" }, true) := by
        simp [initStorageType, ht, hc]
      rcases Bool.and_eq_true_iff.mp hc with ⟨hc1, hc3⟩
      rcases Bool.and_eq_true_iff.mp hc1 with ⟨htok, hsome⟩
      rcases Option.isSome_iff_exists.mp hsome with ⟨ev, hev⟩
      refine ⟨?_, ?_⟩
      · rw [hres]
        simp only [true_iff]
        refine ⟨h0, htok, ev, hev, ?_⟩
        have := of_decide_eq_true hc3
        rw [hev] at this
        simpa using this
      · intro _
        rw [hres]
        simp [bootAdapterPath]
    · have hres : initStorageType ls now = (ls, false) := by
        simp [initStorageType, ht, hc]
      refine ⟨?_, ?_⟩
      · rw [hres]
        simp only [Bool.false_eq_true, false_iff]
        rintro ⟨-, htok, ev, hev, hlt⟩
        apply hc
        simp [htok, hev]
        omega
      · intro hfired
        rw [hres] at hfired
        exact absurd hfired (by simp)
  · have ht : optStrTruthy ls.storageType = true := by
      simp [optStrTruthy, h0]
    have hres : initStorageType ls now = (ls, false) := by
      simp [initStorageType, ht]
    refine ⟨?_, ?_⟩
    · rw [hres]
      simp only [Bool.false_eq_true, false_iff]
      rintro ⟨hnone, -⟩
      rw [h0] at hnone
      exact Option.noConfusion hnone
    · intro hfired
      rw [hres] at hfired
      exact absurd hfired (by simp)

/-- C8 witness: no recorded preference, a valid token — the inference
fires, records `'gdrive'` and boot takes the remote path. -/
theorem c8_boot_preference_inferred_iff_witness :
    ((initStorageType ⟨none, some "tok", some 10⟩ 5).2 = true ↔
      (⟨none, some "tok", some 10⟩ : BootLs).storageType = none
      ∧ optStrTruthy (⟨none, some "tok", some 10⟩ : BootLs).gdriveToken = true
      ∧ ∃ e, (⟨none, some "tok", some 10⟩ : BootLs).gdriveExpiry = some e
          ∧ (5 : Int) < e)
    ∧ ((initStorageType ⟨none, some "tok", some 10⟩ 5).2 = true →
        (initStorageType ⟨none, some "tok", some 10⟩ 5).1.storageType
          = some "gdrive"
        ∧ bootAdapterPath
            (initStorageType ⟨none, some "tok", some 10⟩ 5).1.storageType
          = "gdrive") :=
  c8_boot_preference_inferred_iff ⟨none, some "tok", some 10⟩ 5 (Or.inl rfl)

theorem saveEffect_key_mem (p : StatePiece) (l : Bool) (st : ShellState)
    (kv : String × JsonValue) (h : kv ∈ saveEffect p l st) :
    kv.1 ∈ ownKeys p := by
  cases l with
  | true => simp [saveEffect] at h
  | false =>
      cases p with
      | enabledWidgets =>
          simp [saveEffect] at h
          simp [h, ownKeys]
      | widgetVisibility =>
          simp [saveEffect] at h
          simp [h, ownKeys]
      | currentSpace =>
          by_cases hc : jsTruthy st.currentSpace = true
          · simp [saveEffect, hc] at h
            simp [h, ownKeys]
          · simp [saveEffect, hc] at h
      | settings =>
          simp [saveEffect] at h
          simp [h, ownKeys]
      | todoistConfig =>
          simp [saveEffect] at h
          simp [h, ownKeys]
      | musicState =>
          by_cases hc : jsTruthy (jsField st.musicState "customStreams") = true
          · simp [saveEffect, hc] at h
            rcases h with h | h <;> simp [h, ownKeys]
          · simp [saveEffect, hc] at h
            simp [h, ownKeys]
      | customSpaces =>
          simp [saveEffect] at h
          simp [h, ownKeys]

theorem ownKeys_disjoint (p q : StatePiece) (hpq : q ≠ p) (k : String)
    (hk : k ∈ ownKeys p) : k ∉ ownKeys q := by
  cases p <;> cases q <;> try exact absurd rfl hpq
  all_goals
    simp only [ownKeys, List.mem_cons, List.mem_singleton,
      List.not_mem_nil, or_false] at hk ⊢
  all_goals try rcases hk with hk | hk
  all_goals try subst hk
  all_goals decide

/-- C9: while the initial load is in progress every save effect issues no
`storage.set` call at all; once loading has completed, the effect re-run
by a mutation of one piece of shell state writes only keys belonging to
that piece, and touches no key belonging to any other piece. -/
theorem c9_save_effects_frame (p q : StatePiece) (st : ShellState)
    (hpq : q ≠ p) :
    saveEffect p true st = []
    ∧ (∀ kv ∈ saveEffect p false st, kv.1 ∈ ownKeys p)
    ∧ (∀ kv ∈ saveEffect p false st, kv.1 ∉ ownKeys q) :=
  ⟨by simp [saveEffect],
   fun kv hkv => saveEffect_key_mem p false st kv hkv,
   fun kv hkv =>
     ownKeys_disjoint p q hpq kv.1 (saveEffect_key_mem p false st kv hkv)⟩

/-- An arbitrary concrete shell state, for witnesses. -/
def exShellState : ShellState :=
  ⟨.null, .null, .null, .null, .null, .null, .null⟩

/-- C9 witness: mutating `settings` after load writes only settings keys
and no music-state key. -/
theorem c9_save_effects_frame_witness :
    saveEffect .settings true exShellState = []
    ∧ (∀ kv ∈ saveEffect .settings false exShellState,
        kv.1 ∈ ownKeys .settings)
    ∧ (∀ kv ∈ saveEffect .settings false exShellState,
        kv.1 ∉ ownKeys .musicState) :=
  c9_save_effects_frame .settings .musicState exShellState (by decide)

theorem docGet_applyWrites_of_not_written (s : Doc)
    (ws : List (String × JsonValue)) (k : String)
    (h : ∀ kv ∈ ws, kv.1 ≠ k) :
    docGet (applyWrites s ws) k = docGet s k := by
  induction ws generalizing s with
  | nil => rfl
  | cons w ws ih =>
      simp only [applyWrites, List.foldl_cons]
      rw [show List.foldl (fun acc kv => docSet acc kv.1 kv.2)
          (docSet s w.1 w.2) ws
          = applyWrites (docSet s w.1 w.2) ws from rfl]
      rw [ih (docSet s w.1 w.2) (fun kv hkv => h kv (List.mem_cons_of_mem _ hkv))]
      exact docGet_docSet_ne s k w.1 w.2 (h w (List.mem_cons_self _ _))

theorem docGet_runSession_foreign (k : String)
    (hk : ∀ p : StatePiece, k ∉ ownKeys p) :
    ∀ (evs : List (StatePiece × Bool × ShellState)) (s : Doc),
      docGet (runSession s evs) k = docGet s k := by
  intro evs
  induction evs with
  | nil => intro s; rfl
  | cons ev evs ih =>
      intro s
      rcases ev with ⟨p, l, st⟩
      simp only [runSession]
      rw [ih, docGet_applyWrites_of_not_written]
      intro kv hkv hkk
      exact hk p (hkk ▸ saveEffect_key_mem p l st kv hkv)

/-- C10: the custom-spaces and custom-streams save effects write the keys
`chillspace-custom-spaces` / `chillspace-custom-streams`, neither of which
is among the startup bulk-read keys (which instead include
`focusnook-custom-spaces` / `focusnook-custom-streams`); consequently,
after any session of shell save effects starting from an empty store, the
next startup's bulk read of the two focusnook keys returns nothing — never
a value saved during the session. -/
theorem c10_custom_keys_mismatch (st : ShellState) (xs : List JsonValue)
    (st0 : ShellState) (evs : List (StatePiece × Bool × ShellState)) :
    saveEffect .customSpaces false st
      = [("chillspace-custom-spaces", st.customSpaces)]
    ∧ saveEffect .musicState false
        { st0 with musicState := .obj [("customStreams", .arr xs)] }
      = [("focusnook-music", .obj [("customStreams", .arr xs)]),
         ("chillspace-custom-streams", .arr xs)]
    ∧ ("chillspace-custom-spaces" ∉ loadKeys
        ∧ "chillspace-custom-streams" ∉ loadKeys
        ∧ "focusnook-custom-spaces" ∈ loadKeys
        ∧ "focusnook-custom-streams" ∈ loadKeys)
    ∧ (docGet (runSession [] evs) "focusnook-custom-spaces" = none
        ∧ docGet (runSession [] evs) "focusnook-custom-streams" = none) := by
  refine ⟨by simp [saveEffect], ?_, by decide, ?_, ?_⟩
  · simp [saveEffect, jsField, docGet, jsTruthy]
  · rw [docGet_runSession_foreign "focusnook-custom-spaces"
      (by intro p; cases p <;> decide)]
    rfl
  · rw [docGet_runSession_foreign "focusnook-custom-streams"
      (by intro p; cases p <;> decide)]
    rfl

end Focusnook
